import Mathlib

/-!
Shallow embedding of the ios-voice-bilingui-ai-school backend
(`backend/app/services/whisper_service.py`,
`backend/app/services/speech_analysis_engine.py`,
`backend/app/services/gamification_engine.py`,
`backend/app/utils/helpers.py`), with theorems checking the
natural-language specification against the code.

Numbers that Python holds as floats are modelled as rationals (ℚ); calls
to `np.random.uniform(lo, hi)` are modelled as deterministic reads from an
explicit random-generator state that is threaded through each function.
-/

/-- State of the pseudo-random number generator (`np.random`).  `stream`
is the generator's sequence of unit samples and `pos` the position of the
next draw; every draw advances `pos` by one. -/
structure RNG where
  stream : Nat → ℚ
  pos : Nat

/-- Models `np.random.uniform(lo, hi)`: one draw from the generator,
scaled from the unit interval to the interval from `lo` to `hi`, returned
together with the advanced generator state. -/
def RNG.uniform (g : RNG) (lo hi : ℚ) : ℚ × RNG :=
  (lo + (hi - lo) * g.stream g.pos, ⟨g.stream, g.pos + 1⟩)

/-- Accumulator loop for `pySplit`: walk the characters, collecting the
current word in reverse; whitespace closes the word. -/
def pySplitGo : List Char → List Char → List (List Char)
  | [], cur => if cur = [] then [] else [cur.reverse]
  | c :: rest, cur =>
    if c.isWhitespace then
      if cur = [] then pySplitGo rest []
      else cur.reverse :: pySplitGo rest []
    else pySplitGo rest (c :: cur)

/-- Models Python `str.split()` with no argument: split on runs of
whitespace, dropping empty pieces.  Implemented by structural recursion
on the character list so that concrete instances reduce in the kernel. -/
def pySplit (s : String) : List String :=
  (pySplitGo s.data []).map (fun w => String.mk w)

/-- One entry of the `word_timestamps` list built by
`AdvancedWhisperService._generate_word_timestamps`.  The Python dict keys
are `word`, `start`, `end`, `confidence`; `end` is a Lean keyword so the
field is named `end_time`. -/
structure WordTimestamp where
  word : String
  start : ℚ
  end_time : ℚ
  confidence : ℚ
deriving DecidableEq

/-- Result of `AdvancedWhisperService._assess_audio_quality`: every field
except `duration` is a hardcoded string; `duration` is
`np.random.uniform(2.0, 8.0)`.  The `audio_path` argument of the Python
method is ignored by its body. -/
structure AudioQualityInfo where
  volume_level : String
  background_noise : String
  clarity : String
  sample_rate : String
  duration : ℚ
deriving DecidableEq

/-- Embeds `AdvancedWhisperService._assess_audio_quality(audio_path)`. -/
def assess_audio_quality (audioPath : String) (g : RNG) : AudioQualityInfo × RNG :=
  let (dur, g1) := g.uniform 2.0 8.0
  ({ volume_level := "optimal", background_noise := "minimal", clarity := "high",
     sample_rate := "44.1kHz", duration := dur }, g1)

/-- Embeds the loop of `AdvancedWhisperService._generate_word_timestamps`:
for each word, the duration draw `np.random.uniform(0.1, 0.3)` happens
first, then the confidence draw `np.random.uniform(0.8, 0.98)`, and the
running start time advances by the word's duration. -/
def generate_word_timestamps_from (words : List String) (t : ℚ) (g : RNG) :
    List WordTimestamp × RNG :=
  match words with
  | [] => ([], g)
  | w :: ws =>
    let (u, g1) := g.uniform 0.1 0.3
    let dur := (w.length : ℚ) * 0.1 + u
    let (c, g2) := g1.uniform 0.8 0.98
    let (rest, g3) := generate_word_timestamps_from ws (t + dur) g2
    ({ word := w, start := t, end_time := t + dur, confidence := c } :: rest, g3)

/-- Embeds `AdvancedWhisperService._generate_word_timestamps(transcription)`. -/
def generate_word_timestamps (transcription : String) (g : RNG) :
    List WordTimestamp × RNG :=
  generate_word_timestamps_from (pySplit transcription) 0 g

/-- The dict returned by `AdvancedWhisperService.transcribe_audio` on its
non-exceptional path. -/
structure TranscriptionOutput where
  transcription : String
  confidence : ℚ
  language_detected : String
  processing_time : ℚ
  word_timestamps : List WordTimestamp
  audio_quality : AudioQualityInfo
deriving DecidableEq

/-- Embeds `AdvancedWhisperService.transcribe_audio(audio_path, language)`.
The body sets `transcription` to the hardcoded string
"Hello, how are you today?", draws `confidence` from
`np.random.uniform(0.85, 0.98)`, and never reads the audio at
`audio_path`; no Whisper model is invoked (the comment in the source says
"In production, use actual Whisper transcription").  The body raises no
exception, so the surrounding try/except is not modelled. -/
def whisper_transcribe (audioPath language : String) (g : RNG) :
    TranscriptionOutput × RNG :=
  let transcription := "Hello, how are you today?"
  let (conf, g1) := g.uniform 0.85 0.98
  let (ts, g2) := generate_word_timestamps transcription g1
  let (aq, g3) := assess_audio_quality audioPath g2
  ({ transcription := transcription, confidence := conf,
     language_detected := language, processing_time := 0.5,
     word_timestamps := ts, audio_quality := aq }, g3)

/-- Result of `SpeechAnalysisEngine._analyze_prosody`: every field is a
fresh `np.random.uniform` draw, in source order. -/
structure ProsodyOutput where
  score : ℚ
  rhythm_score : ℚ
  intonation_score : ℚ
  stress_accuracy : ℚ
  emotional_expression : ℚ
  naturalness : ℚ
deriving DecidableEq

/-- Embeds `SpeechAnalysisEngine._analyze_prosody(audio_data, text)`.
Neither the audio bytes nor the text influence the result: all six
fields are successive random draws. -/
def analyze_prosody (audioData : List Nat) (text : String) (g : RNG) :
    ProsodyOutput × RNG :=
  let (s, g1) := g.uniform 0.7 0.9
  let (r, g2) := g1.uniform 0.6 0.9
  let (i, g3) := g2.uniform 0.7 0.95
  let (st, g4) := g3.uniform 0.65 0.9
  let (e, g5) := g4.uniform 0.5 0.8
  let (n, g6) := g5.uniform 0.6 0.85
  ({ score := s, rhythm_score := r, intonation_score := i, stress_accuracy := st,
     emotional_expression := e, naturalness := n }, g6)

/-- Result of `SpeechAnalysisEngine._analyze_fluency_patterns`: the string
field `pause_patterns` is hardcoded; the numeric fields are random draws
in source order. -/
structure FluencyOutput where
  score : ℚ
  speech_rate : ℚ
  pause_patterns : String
  hesitation_frequency : ℚ
  repair_frequency : ℚ
  connected_speech : ℚ
deriving DecidableEq

/-- Embeds `SpeechAnalysisEngine._analyze_fluency_patterns(audio_data, text)`.
Neither argument influences the result. -/
def analyze_fluency_patterns (audioData : List Nat) (text : String) (g : RNG) :
    FluencyOutput × RNG :=
  let (s, g1) := g.uniform 0.7 0.9
  let (sr, g2) := g1.uniform 120 180
  let (h, g3) := g2.uniform 0.1 0.4
  let (rp, g4) := g3.uniform 0.05 0.2
  let (cs, g5) := g4.uniform 0.6 0.9
  ({ score := s, speech_rate := sr, pause_patterns := "natural",
     hesitation_frequency := h, repair_frequency := rp, connected_speech := cs }, g5)

/-- The four per-word sub-scores built inside the loop of
`SpeechAnalysisEngine._analyze_phonetics`. -/
structure PhonemeScore where
  vowels : ℚ
  consonants : ℚ
  stress_pattern : ℚ
  linking : ℚ
deriving DecidableEq

/-- Embeds one iteration of the `_analyze_phonetics` loop: four successive
`np.random.uniform` draws in source order. -/
def phoneme_word_score (g : RNG) : PhonemeScore × RNG :=
  let (v, g1) := g.uniform 0.7 0.95
  let (c, g2) := g1.uniform 0.6 0.9
  let (sp, g3) := g2.uniform 0.5 0.9
  let (l, g4) := g3.uniform 0.6 0.85
  ({ vowels := v, consonants := c, stress_pattern := sp, linking := l }, g4)

/-- Embeds the `phoneme_scores` accumulation of
`SpeechAnalysisEngine._analyze_phonetics(text, native_language)`: one
score per word of `text.split()`, each built from random draws only.
(The Python dict is keyed by word, so a duplicated word overwrites its
earlier entry; the draws still happen once per loop iteration, which the
association list preserves.)  The method receives no audio at all. -/
def analyze_phonetics_scores (words : List String) (g : RNG) :
    List (String × PhonemeScore) × RNG :=
  match words with
  | [] => ([], g)
  | w :: ws =>
    let (s, g1) := phoneme_word_score g
    let (rest, g2) := analyze_phonetics_scores ws g1
    ((w, s) :: rest, g2)

/-- The apostrophe character, written by code point to keep it out of
string literals. -/
def apos : String := String.singleton (Char.ofNat 39)

/-- Models the character class of the Python regex `\w` (ASCII part):
letters, digits, underscore. -/
def isWordChar (c : Char) : Bool := c.isAlphanum || c = '_'

/-- Models Python `str.strip()`: drop whitespace from both ends. -/
def pyStrip (cs : List Char) : List Char :=
  ((cs.dropWhile Char.isWhitespace).reverse.dropWhile Char.isWhitespace).reverse

/-- Joins words with single spaces, as `" ".join(text.split())` does. -/
def joinWithSpace : List (List Char) → List Char
  | [] => []
  | [w] => w
  | w :: ws => w ++ ' ' :: joinWithSpace ws

/-- Embeds `normalize_audio_text(text)` from `backend/app/utils/helpers.py`:
lowercase, delete every character matching `[^\w\s]`, collapse whitespace
runs to single spaces, then the two `replace` calls of the source and a
final strip.  Each `replace` has a single-character pattern, so it is a
per-character filter (deleting apostrophes) or map (hyphen to space);
both are no-ops here, since the regex step already removed apostrophes
and hyphens.  All steps are structural so concrete instances reduce. -/
def normalize_audio_text (text : String) : String :=
  let t1 := text.data.map Char.toLower
  let t2 := t1.filter (fun c => isWordChar c || c.isWhitespace)
  let t3 := joinWithSpace (pySplitGo t2 [])
  let t4 := t3.filter (fun c => c ≠ Char.ofNat 39)
  let t5 := t4.map (fun c => if c = '-' then ' ' else c)
  String.mk (pyStrip t5)

/-- The word set `set(normalize_audio_text(t).split())` used by
`calculate_similarity_score`. -/
def similarity_words (t : String) : Finset String :=
  (pySplit (normalize_audio_text t)).toFinset

/-- Embeds `calculate_similarity_score(text1, text2)` from
`backend/app/utils/helpers.py`: normalize both texts, take their word
sets, return 1.0 when both sets are empty and otherwise the Jaccard ratio
of intersection to union (with the source's guard returning 0.0 for an
empty union). -/
def calculate_similarity_score (text1 text2 : String) : ℚ :=
  if similarity_words text1 = ∅ ∧ similarity_words text2 = ∅ then 1
  else if similarity_words text1 ∪ similarity_words text2 ≠ ∅ then
    ((similarity_words text1 ∩ similarity_words text2).card : ℚ) /
      ((similarity_words text1 ∪ similarity_words text2).card : ℚ)
  else 0

/-- One element of the `user_performance` list consumed by
`generate_learning_path`: a dict whose `score` key may be absent
(`p.get("score", 0)`). -/
structure PerfEntry where
  score : Option ℚ
deriving DecidableEq

/-- The dict returned by `generate_learning_path`.  The empty-performance
branch of the source returns a dict without the `progress_percentage` and
`next_milestones` keys, so those fields are options. -/
structure LearningPath where
  current_level : String
  target_level : String
  progress_percentage : Option ℚ
  recommended_focus : List String
  estimated_duration : String
  next_milestones : Option (List String)
deriving DecidableEq

/-- Embeds the helper `_get_focus_areas(current_level, target_level)` of
`backend/app/utils/helpers.py` (the `target_level` argument is unused in
the source body). -/
def get_focus_areas (current_level target_level : String) : List String :=
  if current_level = "beginner" then
    ["basic_pronunciation", "common_phrases", "simple_conversations"]
  else if current_level = "intermediate" then
    ["fluency_building", "complex_sentences", "natural_rhythm"]
  else if current_level = "advanced" then
    ["accent_reduction", "professional_speaking", "cultural_nuances"]
  else ["general_practice"]

/-- Embeds `_estimate_duration(current_level, target_level)`. -/
def estimate_duration (current_level target_level : String) : String :=
  if current_level = "beginner" ∧ target_level = "intermediate" then "6-8 weeks"
  else if current_level = "beginner" ∧ target_level = "advanced" then "12-16 weeks"
  else if current_level = "intermediate" ∧ target_level = "advanced" then "6-10 weeks"
  else "4-6 weeks"

/-- Embeds `_get_next_milestones(current_level, target_level)` (the
`target_level` argument is unused in the source body). -/
def get_next_milestones (current_level target_level : String) : List String :=
  if current_level = "beginner" then
    ["Achieve 70% pronunciation accuracy", "Complete 20 speaking sessions"]
  else if current_level = "intermediate" then
    ["Maintain 85% fluency score", "Practice advanced conversations"]
  else if current_level = "advanced" then
    ["Perfect accent consistency", "Master professional communication"]
  else ["Continue regular practice"]

/-- Embeds `generate_learning_path(user_performance, target_level)` from
`backend/app/utils/helpers.py`.  `user_performance[-10:]` is the suffix of
the last (up to) ten entries, written as a drop of all but the last ten;
`avg_score` carries the source's guard `if recent_scores else 0`. -/
def generate_learning_path (user_performance : List PerfEntry)
    (target_level : String) : LearningPath :=
  if user_performance = [] then
    { current_level := "beginner", target_level := target_level,
      progress_percentage := none,
      recommended_focus := ["basic_pronunciation", "common_phrases"],
      estimated_duration := "4 weeks", next_milestones := none }
  else
    let recent_scores :=
      (user_performance.drop (user_performance.length - 10)).map
        (fun p => p.score.getD 0)
    let avg_score : ℚ :=
      if recent_scores ≠ [] then recent_scores.sum / (recent_scores.length : ℚ)
      else 0
    let current_level :=
      if avg_score ≥ 85 then "advanced"
      else if avg_score ≥ 70 then "intermediate"
      else "beginner"
    { current_level := current_level, target_level := target_level,
      progress_percentage := some (min 100 (avg_score / 90 * 100)),
      recommended_focus := get_focus_areas current_level target_level,
      estimated_duration := estimate_duration current_level target_level,
      next_milestones := some (get_next_milestones current_level target_level) }

/-- A Python exception as observed through `str(e)` in the engine's
catch-all handlers.  The only exception the embedded code paths can raise
is the `AttributeError` produced by looking up a method name that the
class never defines; the constructor records the missing attribute. -/
inductive PyErr where
  | attributeError (attr : String)
deriving DecidableEq

/-- Models Python `int(q)`: truncation toward zero. -/
def pyIntTrunc (q : ℚ) : ℤ := if 0 ≤ q then ⌊q⌋ else ⌈q⌉

/-- The `performance_data` dict consumed by
`GamificationEngine.calculate_xp_reward`: the keys read by the code
(`score`, `duration`, `difficulty`) may each be absent. -/
structure PerformanceData where
  score : Option ℚ
  duration : Option ℚ
  difficulty : Option String
deriving DecidableEq

/-- Embeds `GamificationEngine._get_base_xp(activity_type)`: the fixed
base-XP table with default 20. -/
def get_base_xp (activity_type : String) : ℤ :=
  if activity_type = "lesson_completion" then 50
  else if activity_type = "pronunciation_practice" then 30
  else if activity_type = "conversation_practice" then 40
  else if activity_type = "grammar_exercise" then 25
  else if activity_type = "vocabulary_drill" then 20
  else if activity_type = "listening_comprehension" then 35
  else if activity_type = "speaking_assessment" then 45
  else 20

/-- Embeds `GamificationEngine._calculate_performance_multiplier`:
piecewise multiplier of `performance_data.get("score", 50)`. -/
def calculate_performance_multiplier (performance_data : PerformanceData) : ℚ :=
  let score := performance_data.score.getD 50
  if score ≥ 95 then 2
  else if score ≥ 85 then 1.5
  else if score ≥ 70 then 1.2
  else if score ≥ 50 then 1
  else 0.8

/-- Embeds `GamificationEngine._calculate_consistency_bonus(user_id)`:
the body hardcodes `consistency_days = 5` (a simulation), so the result
is 25 for every user. -/
def calculate_consistency_bonus (user_id : String) : ℤ :=
  let consistency_days : ℤ := 5
  if consistency_days ≥ 7 then 50
  else if consistency_days ≥ 3 then 25
  else 0

/-- Embeds `GamificationEngine._get_streak_multiplier(user_id)`: the body
hardcodes `current_streak = 5` (a simulation), so the result is 1.1 for
every user. -/
def get_streak_multiplier (user_id : String) : ℚ :=
  let current_streak : ℤ := 5
  if current_streak ≥ 30 then 2
  else if current_streak ≥ 14 then 1.5
  else if current_streak ≥ 7 then 1.3
  else if current_streak ≥ 3 then 1.1
  else 1

/-- Models the call `self._check_special_bonuses(...)` in
`calculate_xp_reward`.  The class defines no method of this name anywhere
in the repository, so Python attribute lookup raises `AttributeError`
before any bonus is computed; the result type is therefore never
observed (a name-to-amount dict, judging from `sum(...values())`). -/
def check_special_bonuses_call (user_id activity_type : String)
    (performance_data : PerformanceData) : Except PyErr (List (String × ℤ)) :=
  .error (.attributeError "_check_special_bonuses")

/-- The `xp_breakdown` dict built by `calculate_xp_reward` on its
non-exceptional path (never reached, see `check_special_bonuses_call`).
The three `calculation_details` sub-keys are inlined as fields. -/
structure XpBreakdown where
  base_xp : ℤ
  performance_multiplier : ℚ
  streak_multiplier : ℚ
  consistency_bonus : ℤ
  special_bonuses : List (String × ℤ)
  total_xp : ℤ
  activity_type : String
  performance_score : ℚ
  time_spent : ℚ
  difficulty : String
deriving DecidableEq

/-- Return value of `calculate_xp_reward`: either the breakdown dict or
the catch-all fallback dict with keys `total_xp` (10) and `error`. -/
inductive XpRewardResult where
  | breakdown (b : XpBreakdown)
  | fallback (total_xp : ℤ) (err : PyErr)
deriving DecidableEq

/-- Embeds the try-block of
`GamificationEngine.calculate_xp_reward(activity_type, performance_data,
user_id)`, in source order: base XP, performance multiplier, consistency
bonus, streak multiplier, the `int(...)` total, then the call to the
absent method `_check_special_bonuses`, which raises. -/
def calculate_xp_reward_body (activity_type : String)
    (performance_data : PerformanceData) (user_id : String) :
    Except PyErr XpBreakdown := do
  let base_xp := get_base_xp activity_type
  let performance_multiplier := calculate_performance_multiplier performance_data
  let consistency_bonus := calculate_consistency_bonus user_id
  let streak_multiplier := get_streak_multiplier user_id
  let total_xp :=
    pyIntTrunc ((base_xp : ℚ) * performance_multiplier * streak_multiplier)
      + consistency_bonus
  let special_bonuses ←
    check_special_bonuses_call user_id activity_type performance_data
  pure { base_xp := base_xp, performance_multiplier := performance_multiplier,
         streak_multiplier := streak_multiplier,
         consistency_bonus := consistency_bonus,
         special_bonuses := special_bonuses,
         total_xp := total_xp + (special_bonuses.map Prod.snd).sum,
         activity_type := activity_type,
         performance_score := performance_data.score.getD 0,
         time_spent := performance_data.duration.getD 0,
         difficulty := performance_data.difficulty.getD "medium" }

/-- Embeds `GamificationEngine.calculate_xp_reward` with its catch-all
handler: any exception in the body becomes `{"total_xp": 10, "error": str(e)}`. -/
def calculate_xp_reward (activity_type : String)
    (performance_data : PerformanceData) (user_id : String) : XpRewardResult :=
  match calculate_xp_reward_body activity_type performance_data user_id with
  | .ok b => .breakdown b
  | .error e => .fallback 10 e

/-- Badge rarity enum of `gamification_engine.py`. -/
inductive BadgeRarity where
  | common
  | rare
  | epic
  | legendary
deriving DecidableEq

/-- The `Achievement` dataclass of `gamification_engine.py`; `criteria`
is a single-key dict modelled as a key-value list. -/
structure Achievement where
  id : String
  name : String
  description : String
  badge_rarity : BadgeRarity
  xp_reward : ℤ
  criteria : List (String × ℤ)
  unlock_message : String

/-- Embeds `GamificationEngine._initialize_achievements`: the thirteen
catalog entries in insertion order (Python dicts preserve it). -/
def achievements_catalog : List (String × Achievement) :=
  [("first_lesson",
    { id := "first_lesson", name := "First Steps",
      description := "Complete your first lesson",
      badge_rarity := .common, xp_reward := 50,
      criteria := [("lessons_completed", 1)],
      unlock_message := "🎉 Welcome to your language journey!" }),
   ("streak_3",
    { id := "streak_3", name := "Getting Started",
      description := "Maintain a 3-day learning streak",
      badge_rarity := .common, xp_reward := 100,
      criteria := [("streak_days", 3)],
      unlock_message := "🔥 You" ++ apos ++ "re building momentum!" }),
   ("streak_7",
    { id := "streak_7", name := "Weekly Warrior",
      description := "Maintain a 7-day learning streak",
      badge_rarity := .rare, xp_reward := 250,
      criteria := [("streak_days", 7)],
      unlock_message := "⚡ One week of dedication!" }),
   ("streak_30",
    { id := "streak_30", name := "Monthly Master",
      description := "Maintain a 30-day learning streak",
      badge_rarity := .epic, xp_reward := 1000,
      criteria := [("streak_days", 30)],
      unlock_message := "🏆 Incredible consistency!" }),
   ("streak_100",
    { id := "streak_100", name := "Century Champion",
      description := "Maintain a 100-day learning streak",
      badge_rarity := .legendary, xp_reward := 5000,
      criteria := [("streak_days", 100)],
      unlock_message := "👑 You are unstoppable!" }),
   ("pronunciation_pro",
    { id := "pronunciation_pro", name := "Pronunciation Pro",
      description := "Score 90+ on pronunciation 10 times",
      badge_rarity := .rare, xp_reward := 300,
      criteria := [("pronunciation_scores_90_plus", 10)],
      unlock_message := "🎤 Your pronunciation is excellent!" }),
   ("fluency_master",
    { id := "fluency_master", name := "Fluency Master",
      description := "Achieve 95+ fluency score",
      badge_rarity := .epic, xp_reward := 500,
      criteria := [("max_fluency_score", 95)],
      unlock_message := "🌟 You speak like a native!" }),
   ("level_up",
    { id := "level_up", name := "Level Up",
      description := "Reach level 10",
      badge_rarity := .rare, xp_reward := 400,
      criteria := [("level", 10)],
      unlock_message := "📈 You" ++ apos ++ "ve leveled up significantly!" }),
   ("xp_collector",
    { id := "xp_collector", name := "XP Collector",
      description := "Earn 10,000 total XP",
      badge_rarity := .epic, xp_reward := 1000,
      criteria := [("total_xp", 10000)],
      unlock_message := "💎 You" ++ apos ++ "re a dedicated learner!" }),
   ("helpful_friend",
    { id := "helpful_friend", name := "Helpful Friend",
      description := "Help 5 friends with practice",
      badge_rarity := .rare, xp_reward := 300,
      criteria := [("friends_helped", 5)],
      unlock_message := "🤝 You" ++ apos ++ "re a great learning partner!" }),
   ("community_leader",
    { id := "community_leader", name := "Community Leader",
      description := "Be in top 10 on leaderboard for 7 days",
      badge_rarity := .epic, xp_reward := 750,
      criteria := [("leaderboard_top10_days", 7)],
      unlock_message := "🥇 You inspire others!" }),
   ("grammar_guru",
    { id := "grammar_guru", name := "Grammar Guru",
      description := "Perfect grammar score in 20 exercises",
      badge_rarity := .epic, xp_reward := 600,
      criteria := [("perfect_grammar_scores", 20)],
      unlock_message := "📚 Your grammar is impeccable!" }),
   ("conversation_champion",
    { id := "conversation_champion", name := "Conversation Champion",
      description := "Complete 50 conversation exercises",
      badge_rarity := .epic, xp_reward := 800,
      criteria := [("conversation_exercises", 50)],
      unlock_message := "💬 You" ++ apos ++ "re a conversation expert!" })]

/-- The `user_stats` dict passed to `check_achievements`, modelled as a
key-value list. -/
def UserStats : Type := List (String × ℚ)

/-- Models the call `self._is_achievement_unlocked(achievement,
user_stats)`: the method is absent from the class, so the call raises
`AttributeError`. -/
def is_achievement_unlocked_call (a : Achievement) (stats : UserStats) :
    Except PyErr Bool :=
  .error (.attributeError "_is_achievement_unlocked")

/-- Models the call `self._user_has_achievement(user_id, achievement_id)`
(absent method, raises; unreachable behind
`is_achievement_unlocked_call`). -/
def user_has_achievement_call (user_id achievement_id : String) :
    Except PyErr Bool :=
  .error (.attributeError "_user_has_achievement")

/-- Models the call `self._create_celebration_data(achievement)` (absent
method, raises; unreachable).  Its payload type is unobservable, hence
`Unit`. -/
def create_celebration_data_call (a : Achievement) : Except PyErr Unit :=
  .error (.attributeError "_create_celebration_data")

/-- One element of the `unlocked_achievements` list of
`check_achievements` (never constructed, see the raising calls). -/
structure UnlockedEntry where
  achievement : Achievement
  unlocked_at : String
  celebration_data : Unit

/-- Embeds the try-block of `GamificationEngine.check_achievements`:
iterate the catalog, asking `_is_achievement_unlocked` for each entry.
`now` stands for `datetime.now().isoformat()`. -/
def check_achievements_body (user_id : String) (user_stats : UserStats)
    (now : String) : Except PyErr (List UnlockedEntry) :=
  achievements_catalog.foldlM
    (fun acc entry => do
      let unlocked ← is_achievement_unlocked_call entry.2 user_stats
      if unlocked then do
        let has ← user_has_achievement_call user_id entry.1
        if has = false then do
          let cd ← create_celebration_data_call entry.2
          pure (acc ++ [{ achievement := entry.2, unlocked_at := now,
                          celebration_data := cd }])
        else pure acc
      else pure acc)
    []

/-- Embeds `GamificationEngine.check_achievements` with its catch-all
handler returning the empty list. -/
def check_achievements (user_id : String) (user_stats : UserStats)
    (now : String) : List UnlockedEntry :=
  match check_achievements_body user_id user_stats now with
  | .ok l => l
  | .error _ => []

/-- Models the call `self._get_current_streak(user_id)` in
`update_streak`: the method is absent from the class, so the call raises
`AttributeError` before any streak arithmetic runs. -/
def get_current_streak_call (user_id : String) : Except PyErr ℤ :=
  .error (.attributeError "_get_current_streak")

/-- Models the call `self._get_last_activity_date(user_id)` (absent
method, raises; unreachable). -/
def get_last_activity_date_call (user_id : String) : Except PyErr ℤ :=
  .error (.attributeError "_get_last_activity_date")

/-- The dict `_calculate_new_streak` would return, reconstructed from the
keys `update_streak` reads from it (the method itself is absent). -/
structure NewStreakData where
  current_streak : ℤ
  longest_streak : ℤ
  status : String

/-- Models the call `self._calculate_new_streak(...)` (absent method,
raises; unreachable). -/
def calculate_new_streak_call (current_streak last_activity activity_date : ℤ) :
    Except PyErr NewStreakData :=
  .error (.attributeError "_calculate_new_streak")

/-- Models the call `self._check_personal_records(...)` (absent method,
raises; unreachable; payload unobservable). -/
def check_personal_records_call (user_id : String) (d : NewStreakData) :
    Except PyErr Unit :=
  .error (.attributeError "_check_personal_records")

/-- Models the call `self._generate_streak_motivation(...)` (absent
method, raises; unreachable; payload unobservable). -/
def generate_streak_motivation_call (d : NewStreakData) : Except PyErr Unit :=
  .error (.attributeError "_generate_streak_motivation")

/-- Models the call `self._calculate_streak_bonus_xp(...)` (absent
method, raises; unreachable; payload unobservable). -/
def calculate_streak_bonus_xp_call (current_streak : ℤ) : Except PyErr Unit :=
  .error (.attributeError "_calculate_streak_bonus_xp")

/-- Models the call `self._get_next_streak_milestone(...)` (absent
method, raises; unreachable; payload unobservable). -/
def get_next_streak_milestone_call (current_streak : ℤ) : Except PyErr Unit :=
  .error (.attributeError "_get_next_streak_milestone")

/-- Models the call `self._calculate_streak_level(...)` (absent method,
raises; unreachable; payload unobservable). -/
def calculate_streak_level_call (current_streak : ℤ) : Except PyErr Unit :=
  .error (.attributeError "_calculate_streak_level")

/-- The `streak_update` dict of `update_streak` (never constructed).
Fields produced by absent helper methods carry `Unit`, since those
helpers raise before yielding a value. -/
structure StreakUpdate where
  current_streak : ℤ
  longest_streak : ℤ
  streak_status : String
  streak_bonus_xp : Unit
  personal_records : Unit
  motivational_message : Unit
  next_milestone : Unit
  streak_level : Unit

/-- Return value of `update_streak`: the success dict or the catch-all
fallback dict with keys `current_streak` (1) and `error`. -/
inductive StreakResult where
  | success (s : StreakUpdate)
  | fallback (current_streak : ℤ) (err : PyErr)

/-- Embeds the try-block of `GamificationEngine.update_streak(user_id,
activity_date)`.  Dates are modelled as integers (epoch days); `now`
stands for `datetime.now()`, substituted when `activity_date` is `None`. -/
def update_streak_body (user_id : String) (activity_date : Option ℤ)
    (now : ℤ) : Except PyErr StreakUpdate := do
  let ad := activity_date.getD now
  let current_streak ← get_current_streak_call user_id
  let last_activity ← get_last_activity_date_call user_id
  let nd ← calculate_new_streak_call current_streak last_activity ad
  let pr ← check_personal_records_call user_id nd
  let mm ← generate_streak_motivation_call nd
  let bonus ← calculate_streak_bonus_xp_call nd.current_streak
  let milestone ← get_next_streak_milestone_call nd.current_streak
  let level ← calculate_streak_level_call nd.current_streak
  pure { current_streak := nd.current_streak,
         longest_streak := nd.longest_streak,
         streak_status := nd.status,
         streak_bonus_xp := bonus, personal_records := pr,
         motivational_message := mm, next_milestone := milestone,
         streak_level := level }

/-- Embeds `GamificationEngine.update_streak` with its catch-all handler:
any exception becomes `{"current_streak": 1, "error": str(e)}`. -/
def update_streak (user_id : String) (activity_date : Option ℤ)
    (now : ℤ) : StreakResult :=
  match update_streak_body user_id activity_date now with
  | .ok s => .success s
  | .error e => .fallback 1 e

/-- Models the call `self._fetch_leaderboard_data(leaderboard_type)` in
`generate_leaderboard` (absent method, raises; element type of the list
it would return is unobservable). -/
def fetch_leaderboard_data_call (leaderboard_type : String) :
    Except PyErr (List Unit) :=
  .error (.attributeError "_fetch_leaderboard_data")

/-- Models `self._get_user_ranking(...)` (absent method, raises;
unreachable). -/
def get_user_ranking_call (user_id : String) (data : List Unit) :
    Except PyErr Unit :=
  .error (.attributeError "_get_user_ranking")

/-- Models `self._calculate_leaderboard_stats(...)` (absent method,
raises; unreachable). -/
def calculate_leaderboard_stats_call (data : List Unit) : Except PyErr Unit :=
  .error (.attributeError "_calculate_leaderboard_stats")

/-- Models `self._get_active_competitions()` (absent method, raises;
unreachable). -/
def get_active_competitions_call : Except PyErr Unit :=
  .error (.attributeError "_get_active_competitions")

/-- Models `self._get_leaderboard_rewards(...)` (absent method, raises;
unreachable). -/
def get_leaderboard_rewards_call (leaderboard_type : String) :
    Except PyErr Unit :=
  .error (.attributeError "_get_leaderboard_rewards")

/-- Models `self._get_next_leaderboard_update(...)` (absent method,
raises; unreachable). -/
def get_next_leaderboard_update_call (leaderboard_type : String) :
    Except PyErr Unit :=
  .error (.attributeError "_get_next_leaderboard_update")

/-- Models `self._generate_leaderboard_insights(...)` (absent method,
raises; unreachable). -/
def generate_leaderboard_insights_call (user_ranking : Option Unit)
    (stats : Unit) : Except PyErr Unit :=
  .error (.attributeError "_generate_leaderboard_insights")

/-- The `leaderboard` dict of `generate_leaderboard` (never
constructed; payloads of absent helpers carry `Unit`). -/
structure LeaderboardDict where
  leaderboard_type : String
  rankings : List Unit
  user_ranking : Option Unit
  leaderboard_stats : Unit
  active_competitions : Unit
  rewards : Unit
  next_update : Unit
  motivational_insights : Unit

/-- Return value of `generate_leaderboard`: the leaderboard dict or the
catch-all fallback dict containing only the `error` key. -/
inductive LeaderboardResult where
  | success (d : LeaderboardDict)
  | failure (err : PyErr)

/-- Embeds the try-block of
`GamificationEngine.generate_leaderboard(leaderboard_type, user_id)`. -/
def generate_leaderboard_body (leaderboard_type : String)
    (user_id : Option String) : Except PyErr LeaderboardDict := do
  let data ← fetch_leaderboard_data_call leaderboard_type
  let user_ranking ←
    match user_id with
    | some uid => do
        let r ← get_user_ranking_call uid data
        pure (some r)
    | none => pure none
  let stats ← calculate_leaderboard_stats_call data
  let comps ← get_active_competitions_call
  let rewards ← get_leaderboard_rewards_call leaderboard_type
  let next_update ← get_next_leaderboard_update_call leaderboard_type
  let insights ← generate_leaderboard_insights_call user_ranking stats
  pure { leaderboard_type := leaderboard_type, rankings := data.take 50,
         user_ranking := user_ranking, leaderboard_stats := stats,
         active_competitions := comps, rewards := rewards,
         next_update := next_update, motivational_insights := insights }

/-- Embeds `GamificationEngine.generate_leaderboard` with its catch-all
handler returning `{"error": str(e)}`. -/
def generate_leaderboard (leaderboard_type : String)
    (user_id : Option String) : LeaderboardResult :=
  match generate_leaderboard_body leaderboard_type user_id with
  | .ok d => .success d
  | .error e => .failure e

/-- Models Python `str.title()`: uppercase each character that follows a
non-letter, lowercase the rest (ASCII view). -/
def pyTitleGo : List Char → Bool → List Char
  | [], _ => []
  | c :: cs, prevAlpha =>
    (if prevAlpha then c.toLower else c.toUpper) :: pyTitleGo cs c.isAlpha

/-- Models Python `str.title()` on a whole string. -/
def pyTitle (s : String) : String := String.mk (pyTitleGo s.toList false)

/-- The `user_profile` dict consumed by
`create_personalized_challenges`: the keys read by the code may each be
absent (`.get` with defaults `[]`, `"mixed"`, `0`). -/
structure UserProfile where
  weak_areas : Option (List String)
  learning_style : Option String
  current_streak : Option ℤ

/-- Models the call `self._calculate_challenge_target(area, user_profile)`
in `create_personalized_challenges`: the method is absent from the class,
so the call raises `AttributeError` (it is reached only when `weak_areas`
is non-empty). -/
def calculate_challenge_target_call (area : String) (profile : UserProfile) :
    Except PyErr ℤ :=
  .error (.attributeError "_calculate_challenge_target")

/-- The `rewards` sub-dict of a challenge. -/
structure ChallengeRewards where
  xp : ℤ
  badge : String

/-- The `progress_tracking` sub-dict of a challenge. -/
structure ProgressTracking where
  current : ℤ
  required : ℤ

/-- One challenge dict built by `create_personalized_challenges`. -/
structure Challenge where
  id : String
  name : String
  description : String
  challenge_type : String
  target : ℤ
  duration : ℤ
  rewards : ChallengeRewards
  progress_tracking : ProgressTracking

/-- Embeds the try-block of
`GamificationEngine.create_personalized_challenges(user_id,
user_profile)`: one skill challenge per element of `weak_areas[:2]`
(each calling the absent `_calculate_challenge_target` twice, matching
the two call sites in the dict literal), then the consistency challenge
when the streak is below 7, then the social challenge. -/
def create_personalized_challenges_body (user_id : String)
    (profile : UserProfile) : Except PyErr (List Challenge) := do
  let weak_areas := profile.weak_areas.getD []
  let current_streak := profile.current_streak.getD 0
  let skill_challenges ← (weak_areas.take 2).mapM (fun area => do
    let target ← calculate_challenge_target_call area profile
    let required ← calculate_challenge_target_call area profile
    pure { id := "improve_" ++ area ++ "_" ++ user_id,
           name := "Master " ++ pyTitle area,
           description := "Improve your " ++ area ++ " skills",
           challenge_type := "skill_improvement",
           target := target, duration := 7,
           rewards := { xp := 300, badge := area ++ "_improver" },
           progress_tracking := { current := 0, required := required }
           : Challenge })
  let with_streak :=
    if current_streak < 7 then
      skill_challenges ++
        [{ id := "streak_challenge_" ++ user_id,
           name := "Weekly Consistency",
           description := "Study for 7 days in a row",
           challenge_type := "consistency", target := 7, duration := 7,
           rewards := { xp := 500, badge := "consistency_champion" },
           progress_tracking := { current := current_streak, required := 7 } }]
    else skill_challenges
  pure (with_streak ++
    [{ id := "social_challenge_" ++ user_id,
       name := "Community Learner",
       description := "Interact with 3 other learners",
       challenge_type := "social", target := 3, duration := 14,
       rewards := { xp := 200, badge := "community_member" },
       progress_tracking := { current := 0, required := 3 } }])

/-- Embeds `GamificationEngine.create_personalized_challenges` with its
catch-all handler returning the empty list. -/
def create_personalized_challenges (user_id : String)
    (profile : UserProfile) : List Challenge :=
  match create_personalized_challenges_body user_id profile with
  | .ok l => l
  | .error _ => []

/-- The `current_performance` dict passed to
`generate_motivation_content`, modelled as a key-value list. -/
def CurrentPerformance : Type := List (String × ℚ)

/-- Models the call `self._analyze_motivation_state(current_performance)`
in `generate_motivation_content`: the method is absent from the class, so
the call raises `AttributeError` before anything else runs. -/
def analyze_motivation_state_call (p : CurrentPerformance) :
    Except PyErr Unit :=
  .error (.attributeError "_analyze_motivation_state")

/-- Models `self._generate_motivational_messages(...)` (absent method,
raises; unreachable). -/
def generate_motivational_messages_call (state : Unit) : Except PyErr Unit :=
  .error (.attributeError "_generate_motivational_messages")

/-- Models `self._get_upcoming_achievements(...)` (absent method, raises;
unreachable). -/
def get_upcoming_achievements_call (user_id : String) : Except PyErr Unit :=
  .error (.attributeError "_get_upcoming_achievements")

/-- Models `self._create_progress_visualization(...)` (absent method,
raises; unreachable). -/
def create_progress_visualization_call (p : CurrentPerformance) :
    Except PyErr Unit :=
  .error (.attributeError "_create_progress_visualization")

/-- Models `self._generate_success_tips(...)` (absent method, raises;
unreachable). -/
def generate_success_tips_call (state : Unit) : Except PyErr Unit :=
  .error (.attributeError "_generate_success_tips")

/-- Return value of `generate_motivation_content`: the content dict
(payload unobservable, all of it produced by absent helpers) or the
catch-all fallback dict containing only the `error` key. -/
inductive MotivationResult where
  | success (motivation_state messages upcoming progress tips : Unit)
  | failure (err : PyErr)

/-- Embeds the try-block of
`GamificationEngine.generate_motivation_content(user_id,
current_performance)` up to the dict construction. -/
def generate_motivation_content_body (user_id : String)
    (current_performance : CurrentPerformance) :
    Except PyErr (Unit × Unit × Unit × Unit × Unit) := do
  let state ← analyze_motivation_state_call current_performance
  let messages ← generate_motivational_messages_call state
  let upcoming ← get_upcoming_achievements_call user_id
  let progress ← create_progress_visualization_call current_performance
  let tips ← generate_success_tips_call state
  pure (state, messages, upcoming, progress, tips)

/-- Embeds `GamificationEngine.generate_motivation_content` with its
catch-all handler returning `{"error": str(e)}`. -/
def generate_motivation_content (user_id : String)
    (current_performance : CurrentPerformance) : MotivationResult :=
  match generate_motivation_content_body user_id current_performance with
  | .ok (a, b, c, d, e) => .success a b c d e
  | .error e => .failure e

/-- One entry of `AdvancedWhisperService.performance_cache[user_id]`,
built by `_cache_user_performance`. -/
structure PerfCacheEntry where
  timestamp : String
  score : ℚ
  areas : List String

/-- The keys `_cache_user_performance` reads from its `performance_data`
argument via `.get` with defaults. -/
structure PerfInput where
  overall_score : Option ℚ
  improvement_areas : Option (List String)

/-- Embeds `AdvancedWhisperService._cache_user_performance(user_id,
performance_data)`.  The cache dict is modelled as a total map defaulting
to `[]`, which absorbs the source's `if user_id not in ...` seeding;
`now` stands for `datetime.now().isoformat()`.  The new entry is
appended, then the list is truncated to its last 50 elements when it
exceeds 50. -/
def cache_user_performance (cache : String → List PerfCacheEntry)
    (user_id : String) (now : String) (performance_data : PerfInput) :
    String → List PerfCacheEntry :=
  let lst := cache user_id
  let appended := lst ++
    [{ timestamp := now, score := performance_data.overall_score.getD 0,
       areas := performance_data.improvement_areas.getD [] }]
  let final :=
    if 50 < appended.length then appended.drop (appended.length - 50)
    else appended
  fun u => if u = user_id then final else cache u

/-- The `detailed_metrics` sub-dict of an advanced pronunciation
analysis result, copied wholesale into a cached progress entry. -/
structure DetailedMetrics where
  phonetic_accuracy : ℚ
  prosody_score : ℚ
  fluency_score : ℚ
  clarity_index : ℚ
  native_similarity : ℚ

/-- One element of the `error_details` list; the caching code reads its
`error_type` key. -/
structure ErrorDetail where
  error_type : String

/-- The `error_analysis` sub-dict as read by the caching code:
`.get("error_details", [])`. -/
structure ErrorAnalysisInfo where
  error_details : Option (List ErrorDetail)

/-- The keys `_cache_pronunciation_progress` reads from its
`analysis_result` argument: `overall_score` and `detailed_metrics` by
direct indexing, `error_analysis` via `.get` with default `{}`. -/
structure AnalysisPayload where
  overall_score : ℚ
  detailed_metrics : DetailedMetrics
  error_analysis : Option ErrorAnalysisInfo

/-- One entry of `SpeechAnalysisEngine.user_progress_cache[user_id]`. -/
structure ProgressEntry where
  timestamp : String
  overall_score : ℚ
  detailed_metrics : DetailedMetrics
  improvement_areas : List String

/-- Embeds `SpeechAnalysisEngine._cache_pronunciation_progress(user_id,
analysis_result)`, with the same cache-as-total-map convention and the
same append-then-truncate-to-50 step as `cache_user_performance`. -/
def cache_pronunciation_progress (cache : String → List ProgressEntry)
    (user_id : String) (now : String) (analysis_result : AnalysisPayload) :
    String → List ProgressEntry :=
  let lst := cache user_id
  let details :=
    match analysis_result.error_analysis with
    | none => []
    | some ea => ea.error_details.getD []
  let appended := lst ++
    [({ timestamp := now, overall_score := analysis_result.overall_score,
        detailed_metrics := analysis_result.detailed_metrics,
        improvement_areas := details.map (fun d => d.error_type) } : ProgressEntry)]
  let final :=
    if 50 < appended.length then appended.drop (appended.length - 50)
    else appended
  fun u => if u = user_id then final else cache u

/-- The average that the specification describes for
`generate_learning_path`: the arithmetic mean of the `score` fields
(missing score defaulting to 0) of the last ten entries.  Written from
the claim's words, for comparison against the embedded code. -/
def spec_recent_avg (perf : List PerfEntry) : ℚ :=
  let scores := (perf.drop (perf.length - 10)).map (fun p => p.score.getD 0)
  scores.sum / (scores.length : ℚ)

/-- Shared bound: appending one element and truncating to the last 50
when the length exceeds 50 leaves at most 50 elements. -/
lemma append_truncate_length_le (α : Type) (l : List α) (x : α) :
    (if 50 < (l ++ [x]).length then (l ++ [x]).drop ((l ++ [x]).length - 50)
     else l ++ [x]).length ≤ 50 := by
  by_cases h : 50 < (l ++ [x]).length
  · rw [if_pos h, List.length_drop]
    omega
  · rw [if_neg h]
    omega

/-- C1: the claim says `calculate_xp_reward` returns the base-XP times
performance-multiplier times streak-multiplier formula (plus bonuses) as
`total_xp`.  Evaluating the embedded code at the failing input
`("lesson_completion", score 90, "u1")` shows it instead returns the
catch-all fallback dict with `total_xp` 10, because the method
`_check_special_bonuses` it calls is not defined anywhere in the class:
the formula value never reaches the caller. -/
theorem calculate_xp_reward_formula_unreachable :
  calculate_xp_reward "lesson_completion"
      { score := some 90, duration := none, difficulty := none } "u1" =
    .fallback 10 (.attributeError "_check_special_bonuses") := rfl

/-- C2: the claim says `update_streak` returns the number of consecutive
days of activity as `current_streak`.  Evaluating the embedded code at
user "u1" with an explicit activity date shows it returns the catch-all
fallback dict with `current_streak` 1, because the method
`_get_current_streak` it calls first is not defined anywhere in the
class: no day counting ever happens. -/
theorem update_streak_failing_input_fallback :
  update_streak "u1" (some 19723) 19723 =
    .fallback 1 (.attributeError "_get_current_streak") := rfl

/-- C3 counterexample: the transcription returned by the whisper
service's `transcribe_audio` is the same hardcoded string for two
different audio paths under the same generator state, so it is not the
output of running a speech-to-text model on the audio at the given
path. -/
theorem transcribe_ignores_audio_counterexample :
  (whisper_transcribe "greeting.wav" "en" ⟨fun _ => 0, 0⟩).1.transcription =
      "Hello, how are you today?"
  ∧ (whisper_transcribe "weather_report.wav" "en" ⟨fun _ => 0, 0⟩).1.transcription =
      "Hello, how are you today?" := ⟨rfl, rfl⟩

/-- C3 (amended): `transcribe_audio` does not invoke the external
Whisper model; for every audio path and language it returns the
hardcoded transcription "Hello, how are you today?", and its entire
result is independent of the audio path. -/
theorem transcribe_returns_hardcoded_text :
  ∀ (p1 p2 lang : String) (g : RNG),
    (whisper_transcribe p1 lang g).1.transcription = "Hello, how are you today?"
    ∧ whisper_transcribe p1 lang g = whisper_transcribe p2 lang g :=
  fun _ _ _ _ => ⟨rfl, rfl⟩

/-- C4: the speech-analysis "AI" endpoints are simulated: the
transcription is the same static string for any two audio paths, the
confidence is the generator's next uniform draw on [0.85, 0.98], and the
prosody, fluency and phoneme sub-scores are uniform draws from the
random generator, unchanged under any change of the audio input. -/
theorem speech_ai_endpoints_simulated :
  ∀ (p1 p2 lang : String) (g : RNG) (a1 a2 : List Nat) (t w : String),
    (whisper_transcribe p1 lang g).1.transcription = "Hello, how are you today?"
    ∧ (whisper_transcribe p1 lang g).1.transcription =
        (whisper_transcribe p2 lang g).1.transcription
    ∧ (whisper_transcribe p1 lang g).1.confidence = (g.uniform 0.85 0.98).1
    ∧ analyze_prosody a1 t g = analyze_prosody a2 t g
    ∧ (analyze_prosody a1 t g).1.score = (g.uniform 0.7 0.9).1
    ∧ analyze_fluency_patterns a1 t g = analyze_fluency_patterns a2 t g
    ∧ (analyze_fluency_patterns a1 t g).1.score = (g.uniform 0.7 0.9).1
    ∧ (analyze_phonetics_scores [w] g).1 = [(w, (phoneme_word_score g).1)]
    ∧ (phoneme_word_score g).1.vowels = (g.uniform 0.7 0.95).1 :=
  fun _ _ _ _ _ _ _ _ => ⟨rfl, rfl, rfl, rfl, rfl, rfl, rfl, rfl, rfl⟩

/-- C5: `generate_learning_path`, `_get_base_xp` and
`_calculate_performance_multiplier` are deterministic: equal arguments
give equal results (the embedded functions take no other input). -/
theorem xp_lookups_and_learning_path_deterministic :
  ∀ (perf1 perf2 : List PerfEntry) (t1 t2 a1 a2 : String)
    (q1 q2 : PerformanceData),
    (perf1 = perf2 → t1 = t2 →
      generate_learning_path perf1 t1 = generate_learning_path perf2 t2)
    ∧ (a1 = a2 → get_base_xp a1 = get_base_xp a2)
    ∧ (q1 = q2 →
        calculate_performance_multiplier q1 = calculate_performance_multiplier q2) := by
  intro perf1 perf2 t1 t2 a1 a2 q1 q2
  exact ⟨fun h1 h2 => by rw [h1, h2], fun h => by rw [h], fun h => by rw [h]⟩

/-- Witness for C5 at concrete inputs. -/
theorem xp_lookups_and_learning_path_deterministic_witness :
  generate_learning_path [{ score := some 80 }] "advanced" =
      generate_learning_path [{ score := some 80 }] "advanced"
  ∧ get_base_xp "lesson_completion" = get_base_xp "lesson_completion"
  ∧ calculate_performance_multiplier
        { score := some 90, duration := none, difficulty := none } =
      calculate_performance_multiplier
        { score := some 90, duration := none, difficulty := none } :=
  ⟨(xp_lookups_and_learning_path_deterministic [{ score := some 80 }]
      [{ score := some 80 }] "advanced" "advanced" "lesson_completion"
      "lesson_completion" { score := some 90, duration := none, difficulty := none }
      { score := some 90, duration := none, difficulty := none }).1 rfl rfl,
   (xp_lookups_and_learning_path_deterministic [] [] "" "" "lesson_completion"
      "lesson_completion" { score := none, duration := none, difficulty := none }
      { score := none, duration := none, difficulty := none }).2.1 rfl,
   (xp_lookups_and_learning_path_deterministic [] [] "" "" "lesson_completion"
      "lesson_completion" { score := some 90, duration := none, difficulty := none }
      { score := some 90, duration := none, difficulty := none }).2.2 rfl⟩

/-- C6: for a non-empty performance list, `generate_learning_path`
classifies the current level by the spec's thresholds on the mean of the
last ten scores (missing score defaulting to 0) and reports
`progress_percentage = min 100 (avg / 90 * 100)`; for an empty list it
returns level "beginner" with focus `["basic_pronunciation",
"common_phrases"]`. -/
theorem generate_learning_path_linear_formula :
  ∀ (perf : List PerfEntry) (target : String),
    (perf ≠ [] →
      (generate_learning_path perf target).current_level =
        (if spec_recent_avg perf ≥ 85 then "advanced"
         else if spec_recent_avg perf ≥ 70 then "intermediate"
         else "beginner")
      ∧ (generate_learning_path perf target).progress_percentage =
          some (min 100 (spec_recent_avg perf / 90 * 100)))
    ∧ (generate_learning_path [] target).current_level = "beginner"
    ∧ (generate_learning_path [] target).recommended_focus =
        ["basic_pronunciation", "common_phrases"] := by
  intro perf target
  refine ⟨?_, rfl, rfl⟩
  intro h
  have hne : ((perf.drop (perf.length - 10)).map
      (fun p => p.score.getD 0)) ≠ [] := by
    intro hc
    have hl := congrArg List.length hc
    have hp : 0 < perf.length := List.length_pos.mpr h
    simp [List.length_drop] at hl
    omega
  have hp : 0 < perf.length := List.length_pos.mpr h
  simp [generate_learning_path, spec_recent_avg, h, hne, hp]

/-- Witness for C6 at the one-entry list with score 80. -/
theorem generate_learning_path_linear_formula_witness :
  (generate_learning_path [{ score := some 80 }] "advanced").current_level =
      (if spec_recent_avg [{ score := some 80 }] ≥ 85 then "advanced"
       else if spec_recent_avg [{ score := some 80 }] ≥ 70 then "intermediate"
       else "beginner")
  ∧ (generate_learning_path [{ score := some 80 }] "advanced").progress_percentage =
      some (min 100 (spec_recent_avg [{ score := some 80 }] / 90 * 100)) :=
  (generate_learning_path_linear_formula [{ score := some 80 }] "advanced").1
    (by simp)

/-- C7: failure recovery in the gamification engine is only the
catch-all handler of each public operation; whenever the operation's body
raises, `calculate_xp_reward` returns the dict with `total_xp` 10 and the
error, `check_achievements` and `create_personalized_challenges` return
the empty list, `update_streak` returns the dict with `current_streak` 1
and the error, and `generate_leaderboard` and
`generate_motivation_content` return a dict containing only the error.
Each public operation is a total function of its inputs, so no exception
escapes to the caller. -/
theorem gamification_catchall_fallbacks :
  ∀ (a : String) (p : PerformanceData) (u : String) (stats : UserStats)
    (now : String) (d : Option ℤ) (nowd : ℤ) (t : String) (uid : Option String)
    (profile : UserProfile) (perf : CurrentPerformance),
    (∀ e, calculate_xp_reward_body a p u = .error e →
      calculate_xp_reward a p u = .fallback 10 e)
    ∧ (∀ e, check_achievements_body u stats now = .error e →
      check_achievements u stats now = [])
    ∧ (∀ e, update_streak_body u d nowd = .error e →
      update_streak u d nowd = .fallback 1 e)
    ∧ (∀ e, create_personalized_challenges_body u profile = .error e →
      create_personalized_challenges u profile = [])
    ∧ (∀ e, generate_leaderboard_body t uid = .error e →
      generate_leaderboard t uid = .failure e)
    ∧ (∀ e, generate_motivation_content_body u perf = .error e →
      generate_motivation_content u perf = .failure e) := by
  intro a p u stats now d nowd t uid profile perf
  refine ⟨?_, ?_, ?_, ?_, ?_, ?_⟩
  · intro e h; unfold calculate_xp_reward; rw [h]
  · intro e h; unfold check_achievements; rw [h]
  · intro e h; unfold update_streak; rw [h]
  · intro e h; unfold create_personalized_challenges; rw [h]
  · intro e h; unfold generate_leaderboard; rw [h]
  · intro e h; unfold generate_motivation_content; rw [h]

/-- Witness for C7: concrete inputs on which each body does raise, with
the promised fallback values. -/
theorem gamification_catchall_fallbacks_witness :
  calculate_xp_reward "x" { score := none, duration := none, difficulty := none } "u" =
      .fallback 10 (.attributeError "_check_special_bonuses")
  ∧ check_achievements "u" [] "t" = []
  ∧ update_streak "u" none 0 = .fallback 1 (.attributeError "_get_current_streak")
  ∧ create_personalized_challenges "u"
      { weak_areas := some ["grammar"], learning_style := none,
        current_streak := none } = []
  ∧ generate_leaderboard "weekly" none =
      .failure (.attributeError "_fetch_leaderboard_data")
  ∧ generate_motivation_content "u" [] =
      .failure (.attributeError "_analyze_motivation_state") := by
  have h := gamification_catchall_fallbacks "x"
    { score := none, duration := none, difficulty := none } "u" [] "t"
    none 0 "weekly" none
    { weak_areas := some ["grammar"], learning_style := none,
      current_streak := none } []
  exact ⟨h.1 _ rfl, h.2.1 _ rfl, h.2.2.1 _ rfl, h.2.2.2.1 _ rfl,
    h.2.2.2.2.1 _ rfl, h.2.2.2.2.2 _ rfl⟩

/-- C8: because `_check_special_bonuses`, `_is_achievement_unlocked` and
`_get_current_streak` are not defined anywhere in the class, every
invocation of `calculate_xp_reward` returns the fallback dict with
`total_xp` 10 and an `AttributeError`, every invocation of
`check_achievements` returns the empty list, and every invocation of
`update_streak` returns the fallback dict with `current_streak` 1. -/
theorem gamification_missing_helpers_always_fallback :
  (∀ a p u, calculate_xp_reward a p u =
      .fallback 10 (.attributeError "_check_special_bonuses"))
  ∧ (∀ u stats now, check_achievements u stats now = [])
  ∧ (∀ u d now, update_streak u d now =
      .fallback 1 (.attributeError "_get_current_streak")) :=
  ⟨fun _ _ _ => rfl, fun _ _ _ => rfl, fun _ _ _ => rfl⟩

/-- C9: `calculate_similarity_score` is symmetric, lies in the closed
interval from 0 to 1, and equals 1 whenever both texts normalize to the
empty word set. -/
theorem calculate_similarity_score_symmetric_bounded :
  ∀ t1 t2 : String,
    calculate_similarity_score t1 t2 = calculate_similarity_score t2 t1
    ∧ 0 ≤ calculate_similarity_score t1 t2
    ∧ calculate_similarity_score t1 t2 ≤ 1
    ∧ (similarity_words t1 = ∅ → similarity_words t2 = ∅ →
        calculate_similarity_score t1 t2 = 1) := by
  intro t1 t2
  have hu : ∀ s1 s2 : String,
      ¬(similarity_words s1 = ∅ ∧ similarity_words s2 = ∅) →
      similarity_words s1 ∪ similarity_words s2 ≠ ∅ := by
    intro s1 s2 h hc
    rcases Finset.union_eq_empty.mp hc with ⟨h1, h2⟩
    exact h ⟨h1, h2⟩
  refine ⟨?_, ?_, ?_, ?_⟩
  · unfold calculate_similarity_score
    by_cases h : similarity_words t1 = ∅ ∧ similarity_words t2 = ∅
    · rw [if_pos h, if_pos ⟨h.2, h.1⟩]
    · have h2 : ¬(similarity_words t2 = ∅ ∧ similarity_words t1 = ∅) :=
        fun hc => h ⟨hc.2, hc.1⟩
      rw [if_neg h, if_neg h2, if_pos (hu t1 t2 h), if_pos (hu t2 t1 h2),
        Finset.inter_comm, Finset.union_comm]
  · unfold calculate_similarity_score
    by_cases h : similarity_words t1 = ∅ ∧ similarity_words t2 = ∅
    · rw [if_pos h]; norm_num
    · rw [if_neg h, if_pos (hu t1 t2 h)]
      positivity
  · unfold calculate_similarity_score
    by_cases h : similarity_words t1 = ∅ ∧ similarity_words t2 = ∅
    · rw [if_pos h]
    · rw [if_neg h, if_pos (hu t1 t2 h)]
      have hcard : (((similarity_words t1 ∩ similarity_words t2).card : ℚ)) ≤
          ((similarity_words t1 ∪ similarity_words t2).card : ℚ) := by
        exact_mod_cast Finset.card_le_card
          (Finset.Subset.trans Finset.inter_subset_left Finset.subset_union_left)
      have hpos : (0:ℚ) ≤ ((similarity_words t1 ∪ similarity_words t2).card : ℚ) := by
        positivity
      exact div_le_one_of_le₀ hcard hpos
  · intro h1 h2
    unfold calculate_similarity_score
    rw [if_pos ⟨h1, h2⟩]

/-- Witness for C9: both a punctuation-only text and the empty text
normalize to the empty word set, and their similarity is 1. -/
theorem calculate_similarity_score_symmetric_bounded_witness :
  similarity_words "!!" = ∅ ∧ similarity_words "" = ∅ ∧
    calculate_similarity_score "!!" "" = 1 :=
  ⟨by decide, by decide,
   (calculate_similarity_score_symmetric_bounded "!!" "").2.2.2
     (by decide) (by decide)⟩

/-- C10: after a call to either caching operation, the cached list for
the given user has length at most 50, regardless of the cache's prior
contents. -/
theorem progress_caches_bounded_by_50 :
  ∀ (c1 : String → List PerfCacheEntry) (c2 : String → List ProgressEntry)
    (uid now : String) (pd : PerfInput) (ar : AnalysisPayload),
    ((cache_user_performance c1 uid now pd) uid).length ≤ 50
    ∧ ((cache_pronunciation_progress c2 uid now ar) uid).length ≤ 50 := by
  intro c1 c2 uid now pd ar
  constructor
  · unfold cache_user_performance
    simp only [if_pos rfl]
    exact append_truncate_length_le _ _ _
  · unfold cache_pronunciation_progress
    simp only [if_pos rfl]
    exact append_truncate_length_le _ _ _
